import Mathlib

/-!
Shallow embedding of the cosmox query-translation layer
(`cosmos-db.service`): field selection, filter compilation, WHERE / ORDER BY
clause construction, query assembly, and the `findMany` pagination facade.

JavaScript runtime values flowing through the untyped parts of the compiler
are modelled by `JSVal`.  A JavaScript computation that can throw a runtime
`TypeError` (calling `.map` on a non-array in the `in` / `notIn` branches of
`createFilter`) is modelled in the `Option` monad: `none` is the thrown
exception, `some s` is normal return of the string `s`.
-/

namespace Cosmox

/-- A JavaScript runtime value, restricted to the shapes that reach the
query compiler: strings, (integer) numbers, booleans, arrays, `null` and
`undefined`. -/
inductive JSVal where
  | str (s : String)
  | num (n : Int)
  | bool (b : Bool)
  | arr (elems : List JSVal)
  | nullv
  | undef

/-- `Array.prototype.join(sep)` on a list of strings. -/
def jsJoin (sep : String) : List String → String
  | [] => ""
  | [x] => x
  | x :: xs => x ++ sep ++ jsJoin sep xs

mutual

/-- String interpolation of a JavaScript value into a template literal
(`${value}`). Arrays stringify as their elements joined by `,`. -/
def renderVal : JSVal → String
  | .str s => s
  | .num n => toString n
  | .bool b => if b then "true" else "false"
  | .nullv => "null"
  | .undef => "undefined"
  | .arr l => renderValList l

/-- Interpolation of a JavaScript array: elements joined by `,`. -/
def renderValList : List JSVal → String
  | [] => ""
  | [x] => renderVal x
  | x :: xs => renderVal x ++ "," ++ renderValList xs

end

/-- `utils.isNonEmptyString`: the value is a (non-empty) string. -/
def isNonEmptyString (s : String) : Bool := decide (s ≠ "")

/-- `utils.isBoolean`. -/
def isBoolean : JSVal → Bool
  | .bool _ => true
  | _ => false

/-- `utils.isNumber`. -/
def isNumber : JSVal → Bool
  | .num _ => true
  | _ => false

/-- `utils.isArray`. -/
def isArray : JSVal → Bool
  | .arr _ => true
  | _ => false

/-- JavaScript truthiness of a value. -/
def jsTruthy : JSVal → Bool
  | .str s => decide (s ≠ "")
  | .num n => decide (n ≠ 0)
  | .bool b => b
  | .arr _ => true
  | .nullv => false
  | .undef => false

/-- The strict-equality test `mode === 'INSENSITIVE'` applied to a runtime
value. -/
def isInsensitive : JSVal → Bool
  | .str s => decide (s = "INSENSITIVE")
  | _ => false

/-- Argument record of `createFilter`.  (The `mode` field is typed
`QueryMode` in TypeScript but is an arbitrary runtime value at this level.) -/
structure CreateFilterArgs where
  field : String
  filterKey : String
  mode : JSVal
  value : JSVal

/-- Rendering of one element of an `in` / `notIn` array: booleans and
numbers unquoted, everything else single-quoted. -/
def renderElem (v : JSVal) : String :=
  if isBoolean v || isNumber v then renderVal v else "'" ++ renderVal v ++ "'"

/-- `createFilter` (cosmos-db.service lines 49–144): compiles one
field/operator/value triple into a predicate fragment.  The top guard of the
source (`isNull(args) || isUndefined(args) || objectIsEmpty(args)`) never
fires, because `args` is a record that always carries its four properties.
Result `none` models the `TypeError` thrown when the `in` / `notIn` branch
calls `.map` on a value that is neither an array nor `null`/`undefined`
(optional chaining turns the latter two into the text `undefined`). -/
def createFilter (args : CreateFilterArgs) : Option String :=
  let f := args.field
  let v := args.value
  if args.filterKey = "contains" then
    if isInsensitive args.mode then
      some ("CONTAINS(LOWER(c." ++ f ++ "), LOWER('" ++ renderVal v ++ "'))")
    else
      some ("CONTAINS(c." ++ f ++ ", '" ++ renderVal v ++ "')")
  else if args.filterKey = "startsWith" then
    if isInsensitive args.mode then
      some ("STARTSWITH(LOWER(c." ++ f ++ "), LOWER('" ++ renderVal v ++ "'))")
    else
      some ("STARTSWITH(c." ++ f ++ ", '" ++ renderVal v ++ "')")
  else if args.filterKey = "endsWith" then
    if isInsensitive args.mode then
      some ("ENDSWITH(LOWER(c." ++ f ++ "), LOWER('" ++ renderVal v ++ "'))")
    else
      some ("ENDSWITH(c." ++ f ++ ",'" ++ renderVal v ++ "')")
  else if args.filterKey = "equals" then
    if isBoolean v || isNumber v then
      some ("c." ++ f ++ " = " ++ renderVal v)
    else
      some ("c." ++ f ++ " = '" ++ renderVal v ++ "'")
  else if args.filterKey = "not" then
    if isBoolean v || isNumber v then
      some ("c." ++ f ++ " != " ++ renderVal v)
    else
      some ("c." ++ f ++ " != '" ++ renderVal v ++ "'")
  else if args.filterKey = "gt" then
    if isBoolean v || isNumber v then
      some ("c." ++ f ++ " > " ++ renderVal v)
    else
      some ("c." ++ f ++ " > '" ++ renderVal v ++ "'")
  else if args.filterKey = "gte" then
    if isBoolean v || isNumber v then
      some ("c." ++ f ++ " >= " ++ renderVal v)
    else
      some ("c." ++ f ++ " >= '" ++ renderVal v ++ "'")
  else if args.filterKey = "lt" then
    if isBoolean v || isNumber v then
      some ("c." ++ f ++ " < " ++ renderVal v)
    else
      some ("c." ++ f ++ " < '" ++ renderVal v ++ "'")
  else if args.filterKey = "lte" then
    if isBoolean v || isNumber v then
      some ("c." ++ f ++ " <= " ++ renderVal v)
    else
      some ("c." ++ f ++ " <= '" ++ renderVal v ++ "'")
  else if args.filterKey = "in" then
    match v with
    | .arr l => some ("c." ++ f ++ " IN (" ++ jsJoin "," (l.map renderElem) ++ ")")
    | .nullv => some ("c." ++ f ++ " IN (undefined)")
    | .undef => some ("c." ++ f ++ " IN (undefined)")
    | _ => none
  else if args.filterKey = "notIn" then
    match v with
    | .arr l => some ("c." ++ f ++ " NOT IN (" ++ jsJoin "," (l.map renderElem) ++ ")")
    | .nullv => some ("c." ++ f ++ " NOT IN (undefined)")
    | .undef => some ("c." ++ f ++ " NOT IN (undefined)")
    | _ => none
  else
    some ""

/-- A field's `FilterSpec` at runtime: the own enumerable properties of the
filter object, in declaration order (as iterated by `Object.entries`). -/
abbrev FilterSpec : Type := List (String × JSVal)

/-- A `where` argument: field name → FilterSpec, in declaration order. -/
abbrev WhereSpec : Type := List (String × FilterSpec)

/-- The effective mode of one field:
`_filters?.mode ? _filters?.mode : 'SENSITIVE'`. -/
def effectiveMode (filters : FilterSpec) : JSVal :=
  match filters.lookup "mode" with
  | some v => if jsTruthy v then v else JSVal.str "SENSITIVE"
  | none => JSVal.str "SENSITIVE"

/-- `buildWhereClause` (cosmos-db.service lines 146–182).  `none` argument
models an absent (`null`/`undefined`) `where`; `some []` an empty object.
The result is in `Option` because `createFilter` can throw. -/
def buildWhereClause (args : Option WhereSpec) : Option String :=
  match args with
  | none => some ""
  | some [] => some ""
  | some fields => do
    let perField ← fields.mapM (fun fe =>
      fe.2.mapM (fun kv =>
        createFilter { field := fe.1, filterKey := kv.1, mode := effectiveMode fe.2,
                       value := kv.2 }))
    let conditions := perField.flatten.filter isNonEmptyString
    match conditions with
    | [] => pure ""
    | _ => pure ("WHERE " ++ jsJoin " AND " conditions)

/-- `constructFieldSelection` (cosmos-db.service lines 30–40): `none` models
an absent select, `some []` an empty object; otherwise every key of the
object is projected as `c.<key>`, joined by `", "`. -/
def constructFieldSelection (args : Option (List (String × Bool))) : String :=
  match args with
  | none => "*"
  | some [] => "*"
  | some keys => jsJoin ", " (keys.map fun kv => "c." ++ kv.1)

/-- `constructOrderByClause` (cosmos-db.service lines 184–194). -/
def constructOrderByClause (args : Option (List (String × String))) : String :=
  match args with
  | none => ""
  | some [] => ""
  | some entries =>
    "ORDER BY " ++ jsJoin ", " (entries.map fun fd => "c." ++ fd.1 ++ " " ++ fd.2)

/-- `FindManyArgs` (the `where` property is named `whereArgs` because
`where` is reserved in Lean).  `take` is a JavaScript number, modelled as a
rational so that non-integer page sizes are representable. -/
structure FindManyArgs where
  whereArgs : Option WhereSpec := none
  take : Option ℚ := none
  nextCursor : Option String := none
  select : Option (List (String × Bool)) := none
  orderBy : Option (List (String × String)) := none

/-- `buildQueryFindMany` (cosmos-db.service lines 196–215). -/
def buildQueryFindMany (dto : FindManyArgs) : Option String := do
  let fieldsSelected := constructFieldSelection dto.select
  let whereClause ← buildWhereClause dto.whereArgs
  let orderByClause := constructOrderByClause dto.orderBy
  let clauses := ["SELECT", fieldsSelected, "FROM c", whereClause, orderByClause].filter
    isNonEmptyString
  pure (jsJoin " " clauses)

/-- The page returned by the paged-execution collaborator
(`FeedResponse`): `resources` is an arbitrary runtime value — the contract
says array, but the code re-checks — plus an optional continuation token. -/
structure FeedResponse where
  resources : JSVal
  continuationToken : Option String

/-- Outcome of `container.items.query(...).fetchNext()` as observed through
`fromPromise`: either a rejection carrying an `ErrorResponse` message, or a
resolved `FeedResponse`. -/
inductive FetchResult where
  | err (message : String)
  | ok (page : FeedResponse)

/-- The paged-execution collaborator: receives the query text, the
continuation token (`nextCursor`) and the page-size ceiling (`take`). -/
def Fetcher : Type := String → Option String → Option ℚ → FetchResult

/-- `FindManyResponse`. -/
structure FindManyResponse where
  items : List JSVal
  nextCursor : Option String

/-- The classified errors `findMany` can throw.  Each constructor records
the data from which the thrown `Error`'s message is built. -/
inductive FindManyError where
  | invalidTake (take : ℚ)
  | storeError (message : String)
  | malformedResponse (message : String)

/-- `typeof` of a runtime value, as interpolated into the
malformed-response message. -/
def jsTypeof : JSVal → String
  | .str _ => "string"
  | .num _ => "number"
  | .bool _ => "boolean"
  | .arr _ => "object"
  | .nullv => "object"
  | .undef => "undefined"

/-- The body of `findMany` after `take` validation has passed
(cosmos-db.service lines 304–336): compile the query, run the single fetch,
classify a rejection as a store error, reject a non-array `resources` as a
malformed response, otherwise forward `resources` and the continuation
token verbatim.  The outer `Option` propagates a compilation `TypeError`. -/
def findManyRun (args : FindManyArgs) (fetch : Fetcher) :
    Option (Except FindManyError FindManyResponse) := do
  let query ← buildQueryFindMany args
  match fetch query args.nextCursor args.take with
  | .err m =>
    pure (.error (.storeError ("Failed to retrieve items form db. " ++ m)))
  | .ok page =>
    match page.resources with
    | .arr l => pure (.ok { items := l, nextCursor := page.continuationToken })
    | v =>
      pure (.error (.malformedResponse
        ("Retrieved data from db, but received " ++ jsTypeof v ++
          " instead of a list of items")))

/-- `BaseModel.findMany` (cosmos-db.service lines 292–337): when `take` is
present it must satisfy `z.number().int().min(1)` — an integer ≥ 1 — and a
violation throws before the query is compiled or the collaborator is
consulted. -/
def findMany (args : FindManyArgs) (fetch : Fetcher) :
    Option (Except FindManyError FindManyResponse) :=
  match args.take with
  | some t =>
    if t.den = 1 ∧ 1 ≤ t then findManyRun args fetch
    else some (.error (.invalidTake t))
  | none => findManyRun args fetch

/-!  Theorems about the embedded program, one per specification claim. -/

theorem jsJoin_cons_cons (sep x b : String) (bs : List String) :
    jsJoin sep (x :: b :: bs) = x ++ sep ++ jsJoin sep (b :: bs) := by
  rw [jsJoin]
  exact fun h => List.noConfusion h

theorem string_append_ne_empty (s t : String) (h : s.data ≠ []) :
    s ++ t ≠ "" := by
  intro he
  apply h
  have hd : (s ++ t).data = "".data := congrArg String.data he
  rw [String.data_append] at hd
  exact (List.append_eq_nil.mp hd).1

/-- The projection produced by `constructFieldSelection` is never the empty
string: an absent or empty selection falls back to `"*"`, and otherwise the
first projected key contributes at least the prefix `c.`. -/
theorem constructFieldSelection_ne_empty (sel : Option (List (String × Bool))) :
    constructFieldSelection sel ≠ "" := by
  match sel with
  | none => decide
  | some [] => decide
  | some (kv :: rest) =>
    show jsJoin ", " ((kv :: rest).map fun kv => "c." ++ kv.1) ≠ ""
    rw [List.map_cons]
    cases h : rest.map (fun kv => "c." ++ kv.1) with
    | nil => exact string_append_ne_empty "c." kv.1 (by decide)
    | cons b bs =>
      rw [jsJoin_cons_cons, String.append_assoc, String.append_assoc]
      exact string_append_ne_empty "c." _ (by decide)

theorem filter_clauses (sel w o : String) (hsel : sel ≠ "") :
    ["SELECT", sel, "FROM c", w, o].filter isNonEmptyString =
      "SELECT" :: sel :: "FROM c" ::
        ((if w = "" then [] else [w]) ++ (if o = "" then [] else [o])) := by
  by_cases hw : w = "" <;> by_cases ho : o = "" <;>
    simp [List.filter, isNonEmptyString, hsel, hw, ho]

/-- The `take` argument, when present, passes the
`z.number().int().min(1)` validation. -/
def TakeValid (o : Option ℚ) : Prop := ∀ t, o = some t → t.den = 1 ∧ 1 ≤ t

theorem findMany_run_of_takeValid (args : FindManyArgs) (fetch : Fetcher)
    (h : TakeValid args.take) : findMany args fetch = findManyRun args fetch := by
  unfold findMany
  split
  · rename_i t heq
    exact if_pos (h t heq)
  · rfl

/-- C1: the claim says `constructFieldSelection` keeps exactly the truthy
fields and falls back to `"*"` when all values are false.  The code instead
projects every key regardless of its boolean value: on the all-false
selection `{firstName: false, lastName: false, age: false}` it returns
`"c.firstName, c.lastName, c.age"`, not `"*"`.  This contradicts the
repository's own test suite (`constructFieldSelection` tests expect
`"c.firstName, c.lastName"` for `{firstName: true, lastName: true,
age: false}` and `"*"` for the all-false mapping), so the code, not the
claim, is wrong. -/
theorem constructFieldSelection_projects_falsy_fields :
    constructFieldSelection
        (some [("firstName", false), ("lastName", false), ("age", false)]) =
      "c.firstName, c.lastName, c.age" ∧
    constructFieldSelection
        (some [("firstName", true), ("lastName", true), ("age", false)]) =
      "c.firstName, c.lastName, c.age" ∧
    ("c.firstName, c.lastName, c.age" : String) ≠ "*" :=
  ⟨rfl, rfl, by decide⟩

/-- C2 counterexample: for the `in` operator applied to the empty array the
compiler does NOT produce the empty fragment — it renders the always-false
`c.age IN ()`, which survives into the WHERE clause. -/
theorem createFilter_in_emptyArray_rendered :
    createFilter
        { field := "age", filterKey := "in", mode := .str "SENSITIVE",
          value := .arr [] } = some "c.age IN ()" ∧
    ("c.age IN ()" : String) ≠ "" ∧
    buildWhereClause (some [("age", [("in", JSVal.arr [])])]) =
      some "WHERE c.age IN ()" :=
  ⟨rfl, by decide, rfl⟩

/-- C2 amended: for every field and every array value, `in` / `notIn`
render each element by the per-element rule (booleans and numbers unquoted,
everything else single-quoted), joined in input order by `","`; the empty
array therefore yields the degenerate fragment `c.<field> IN ()` (resp.
`NOT IN ()`), which is NOT dropped from the WHERE clause. -/
theorem createFilter_in_notIn_renders_elements (f : String) (m : JSVal)
    (l : List JSVal) :
    createFilter { field := f, filterKey := "in", mode := m, value := .arr l } =
      some ("c." ++ f ++ " IN (" ++ jsJoin "," (l.map renderElem) ++ ")") ∧
    createFilter { field := f, filterKey := "notIn", mode := m, value := .arr l } =
      some ("c." ++ f ++ " NOT IN (" ++ jsJoin "," (l.map renderElem) ++ ")") :=
  ⟨rfl, rfl⟩

/-- C3 counterexample: the sensitive `endsWith` fragment has NO space after
the comma: `ENDSWITH(c.f,'v')`, not the canonical `ENDSWITH(c.f, 'v')`. -/
theorem createFilter_endsWith_space_missing :
    createFilter
        { field := "f", filterKey := "endsWith", mode := .str "SENSITIVE",
          value := .str "v" } = some "ENDSWITH(c.f,'v')" ∧
    ("ENDSWITH(c.f,'v')" : String) ≠ "ENDSWITH(c.f, 'v')" :=
  ⟨rfl, by decide⟩

/-- C3 amended: for every field `f` and string value `v`, compiling
`endsWith` in SENSITIVE mode produces exactly `ENDSWITH(c.f,'v')`, with no
space between the comma and the quoted value (unlike `contains` and
`startsWith`, whose sensitive fragments do have the space). -/
theorem createFilter_endsWith_sensitive (f v : String) :
    createFilter
        { field := f, filterKey := "endsWith", mode := .str "SENSITIVE",
          value := .str v } =
      some ("ENDSWITH(c." ++ f ++ ",'" ++ v ++ "')") :=
  rfl

/-- C8: in the `in` / `notIn` branches the compiler maps over the supplied
value with no array guard.  Whenever the value IS an array the compiler is
total (returns a fragment, never the `TypeError` modelled by `none`); and
the absence of a guard is witnessed by a non-array value (a string), on
which the compiler does reach the error branch. -/
theorem createFilter_in_total_on_arrays :
    (∀ (f : String) (m : JSVal) (l : List JSVal),
      (createFilter
          { field := f, filterKey := "in", mode := m, value := .arr l }).isSome
        = true ∧
      (createFilter
          { field := f, filterKey := "notIn", mode := m, value := .arr l }).isSome
        = true) ∧
    createFilter
        { field := "f", filterKey := "in", mode := .str "SENSITIVE",
          value := .str "x" } = none ∧
    createFilter
        { field := "f", filterKey := "notIn", mode := .str "SENSITIVE",
          value := .num 3 } = none :=
  ⟨fun _ _ _ => ⟨rfl, rfl⟩, rfl, rfl⟩

/-- C5: when `take` is present but is not an integer ≥ 1, `findMany` throws
the take-validation error — for every collaborator, so no network
interaction can have occurred, and regardless of the `where`/`select`/
`orderBy` arguments, so before any query compilation; when `take` is `1` or
`100`, validation passes and `findMany` proceeds to the post-validation
pipeline. -/
theorem findMany_take_validation :
    (∀ (args : FindManyArgs) (fetch : Fetcher) (t : ℚ), args.take = some t →
        ¬ (t.den = 1 ∧ 1 ≤ t) →
        findMany args fetch = some (.error (.invalidTake t))) ∧
    (∀ (args : FindManyArgs) (fetch : Fetcher),
        args.take = some 1 ∨ args.take = some 100 →
        findMany args fetch = findManyRun args fetch) := by
  constructor
  · intro args fetch t ht hbad
    have hstep : findMany args fetch =
        if t.den = 1 ∧ 1 ≤ t then findManyRun args fetch
        else some (.error (.invalidTake t)) := by
      unfold findMany
      rw [ht]
    rw [hstep, if_neg hbad]
  · intro args fetch h
    refine findMany_run_of_takeValid args fetch (fun t ht => ?_)
    rcases h with h | h <;>
      · rw [h] at ht
        injection ht with e
        subst e
        constructor <;> norm_num

/-- C5 witness: `take = 0`, `take = -1` and `take = 3/2` are each rejected
(even alongside a `where` argument whose compilation would itself throw,
and for an arbitrary failing collaborator — the validation error wins);
`take = 1` and `take = 100` pass validation. -/
theorem findMany_take_validation_witness :
    findMany { take := some 0 } (fun _ _ _ => .err "net") =
      some (.error (.invalidTake 0)) ∧
    findMany { take := some (-1) } (fun _ _ _ => .err "net") =
      some (.error (.invalidTake (-1))) ∧
    findMany { take := some (3/2),
               whereArgs := some [("a", [("in", JSVal.str "oops")])] }
        (fun _ _ _ => .err "net") =
      some (.error (.invalidTake (3/2))) ∧
    findMany { take := some 1 } (fun _ _ _ => .err "net") =
      findManyRun { take := some 1 } (fun _ _ _ => .err "net") ∧
    findMany { take := some 100 } (fun _ _ _ => .err "net") =
      findManyRun { take := some 100 } (fun _ _ _ => .err "net") :=
  ⟨findMany_take_validation.1 _ _ 0 rfl (by norm_num),
   findMany_take_validation.1 _ _ (-1) rfl (by norm_num),
   findMany_take_validation.1 _ _ (3/2) rfl (by norm_num),
   findMany_take_validation.2 _ _ (Or.inl rfl),
   findMany_take_validation.2 _ _ (Or.inr rfl)⟩

/-- C4 counterexample: on the empty request the attempted query is
`SELECT * FROM c`, but when the collaborator fails with message `boom` the
error `findMany` throws is exactly
`Failed to retrieve items form db. boom` — the original failure is
preserved, but the query text is NOT part of the error: the query text does
not occur in the message (no infix of the message's characters is the
query's character sequence). -/
theorem findMany_store_error_lacks_query_text :
    buildQueryFindMany {} = some "SELECT * FROM c" ∧
    findMany {} (fun _ _ _ => .err "boom") =
      some (.error (.storeError "Failed to retrieve items form db. boom")) ∧
    ¬ ("SELECT * FROM c".data <:+:
        "Failed to retrieve items form db. boom".data) :=
  ⟨rfl, rfl, by decide⟩

/-- C4 amended: whenever the collaborator fails, `findMany` throws a store-
execution error whose message is `Failed to retrieve items form db. `
followed by the collaborator's own error message — the original failure is
preserved, but the message is NOT augmented with the attempted query text —
and the error is propagated to the caller (the single fetch is never
retried). -/
theorem findMany_store_error_propagation (args : FindManyArgs)
    (fetch : Fetcher) (q m : String) (hval : TakeValid args.take)
    (hq : buildQueryFindMany args = some q)
    (hf : fetch q args.nextCursor args.take = .err m) :
    findMany args fetch =
      some (.error (.storeError ("Failed to retrieve items form db. " ++ m))) := by
  rw [findMany_run_of_takeValid args fetch hval]
  simp [findManyRun, hq, hf]

/-- C4 witness: the amended propagation theorem applied at the empty
request and a collaborator failing with message `boom`. -/
theorem findMany_store_error_propagation_witness :
    findMany {} (fun _ _ _ => .err "boom") =
      some (.error (.storeError "Failed to retrieve items form db. boom")) :=
  findMany_store_error_propagation {} (fun _ _ _ => .err "boom")
    "SELECT * FROM c" "boom" (fun _ ht => nomatch ht) rfl rfl

/-- C7: when the collaborator's response succeeds but its `resources` field
is not an array, `findMany` throws the malformed-response error (naming the
`typeof` of what it got) instead of returning the corrupt payload; when
`resources` is an array, `findMany` returns it unchanged as `items`, with
the collaborator's continuation token forwarded verbatim as `nextCursor`. -/
theorem findMany_response_translation (args : FindManyArgs) (fetch : Fetcher)
    (q : String) (hval : TakeValid args.take)
    (hq : buildQueryFindMany args = some q) :
    (∀ (v : JSVal) (tok : Option String),
        fetch q args.nextCursor args.take = .ok ⟨v, tok⟩ → isArray v = false →
        findMany args fetch = some (.error (.malformedResponse
          ("Retrieved data from db, but received " ++ jsTypeof v ++
            " instead of a list of items")))) ∧
    (∀ (l : List JSVal) (tok : Option String),
        fetch q args.nextCursor args.take = .ok ⟨.arr l, tok⟩ →
        findMany args fetch = some (.ok ⟨l, tok⟩)) := by
  constructor
  · intro v tok hf hv
    rw [findMany_run_of_takeValid args fetch hval]
    cases v <;> simp_all [findManyRun, hq, hf, isArray, jsTypeof]
  · intro l tok hf
    rw [findMany_run_of_takeValid args fetch hval]
    simp [findManyRun, hq, hf]

/-- C7 witness: the translation theorem applied at the empty request, once
with a collaborator returning a string `resources` (malformed) and once
with an array plus continuation token `tok` (forwarded verbatim). -/
theorem findMany_response_translation_witness :
    findMany {} (fun _ _ _ => .ok ⟨.str "nope", none⟩) =
      some (.error (.malformedResponse
        "Retrieved data from db, but received string instead of a list of items")) ∧
    findMany {} (fun _ _ _ => .ok ⟨.arr [.str "a"], some "tok"⟩) =
      some (.ok ⟨[.str "a"], some "tok"⟩) :=
  ⟨(findMany_response_translation {} (fun _ _ _ => .ok ⟨.str "nope", none⟩)
      "SELECT * FROM c" (fun _ ht => nomatch ht) rfl).1 (.str "nope") none rfl rfl,
   (findMany_response_translation {} (fun _ _ _ => .ok ⟨.arr [.str "a"], some "tok"⟩)
      "SELECT * FROM c" (fun _ ht => nomatch ht) rfl).2 [.str "a"] (some "tok") rfl⟩

/-- C6: INSENSITIVE mode wraps both operand sides of every string-pattern
operator in `LOWER`; on the spec's example `{firstName: {startsWith: 'A',
mode: 'INSENSITIVE'}}` the WHERE builder returns exactly
`WHERE STARTSWITH(LOWER(c.firstName), LOWER('A'))`; and a filter object
without a `mode` key compiles under the `SENSITIVE` effective mode. -/
theorem where_insensitive_mode :
    buildWhereClause (some [("firstName",
        [("startsWith", JSVal.str "A"), ("mode", JSVal.str "INSENSITIVE")])]) =
      some "WHERE STARTSWITH(LOWER(c.firstName), LOWER('A'))" ∧
    (∀ f v,
      createFilter
          { field := f, filterKey := "contains",
            mode := .str "INSENSITIVE", value := .str v } =
        some ("CONTAINS(LOWER(c." ++ f ++ "), LOWER('" ++ v ++ "'))") ∧
      createFilter
          { field := f, filterKey := "startsWith",
            mode := .str "INSENSITIVE", value := .str v } =
        some ("STARTSWITH(LOWER(c." ++ f ++ "), LOWER('" ++ v ++ "'))") ∧
      createFilter
          { field := f, filterKey := "endsWith",
            mode := .str "INSENSITIVE", value := .str v } =
        some ("ENDSWITH(LOWER(c." ++ f ++ "), LOWER('" ++ v ++ "'))")) ∧
    (∀ filters : FilterSpec, List.lookup "mode" filters = none →
      effectiveMode filters = .str "SENSITIVE") := by
  refine ⟨rfl, fun f v => ⟨rfl, rfl, rfl⟩, fun filters h => ?_⟩
  simp [effectiveMode, h]

/-- C6 witness: the theorem applied at the filter object with no `mode`
key (the empty filter object). -/
theorem where_insensitive_mode_witness :
    effectiveMode [] = .str "SENSITIVE" :=
  where_insensitive_mode.2.2 [] rfl

theorem createFilter_mode_key (f : String) (m v : JSVal) :
    createFilter { field := f, filterKey := "mode", mode := m, value := v } =
      some "" :=
  rfl

theorem filters_mapM_mode_only (f : String) (mode : JSVal)
    (filters : FilterSpec) (h : ∀ kv ∈ filters, kv.1 = "mode") :
    filters.mapM (fun kv =>
        createFilter { field := f, filterKey := kv.1, mode := mode,
                       value := kv.2 }) =
      some (filters.map fun _ => "") := by
  induction filters with
  | nil => rfl
  | cons kv rest ih =>
    have hk : kv.1 = "mode" := h kv (List.mem_cons_self _ _)
    have hrest := ih (fun x hx => h x (List.mem_cons_of_mem _ hx))
    rw [List.mapM_cons _, hk, hrest]
    simp [createFilter_mode_key]

theorem whereFields_mapM_mode_only (fields : WhereSpec)
    (h : ∀ fe ∈ fields, ∀ kv ∈ fe.2, kv.1 = "mode") :
    fields.mapM (fun fe => fe.2.mapM (fun kv =>
        createFilter { field := fe.1, filterKey := kv.1,
                       mode := effectiveMode fe.2, value := kv.2 })) =
      some (fields.map fun fe => fe.2.map fun _ => "") := by
  induction fields with
  | nil => rfl
  | cons fe rest ih =>
    have h1 := filters_mapM_mode_only fe.1 (effectiveMode fe.2) fe.2
      (h fe (List.mem_cons_self _ _))
    have hrest := ih (fun x hx => h x (List.mem_cons_of_mem _ hx))
    rw [List.mapM_cons _, h1, hrest]
    simp

/-- C9: the WHERE builder iterates every key of a field's filter object —
including `mode` itself — as an operator key; `mode`, like any unrecognized
key, compiles to the empty fragment and is filtered out, so a where spec in
which every field carries only `mode` keys produces the empty string, never
a bare `WHERE`. -/
theorem buildWhereClause_mode_only (fields : WhereSpec)
    (h : ∀ fe ∈ fields, ∀ kv ∈ fe.2, kv.1 = "mode") :
    buildWhereClause (some fields) = some "" := by
  cases fields with
  | nil => rfl
  | cons fe rest =>
    have hmap := whereFields_mapM_mode_only (fe :: rest) h
    have hfilter :
        (((fe :: rest).map fun fe => fe.2.map fun _ => "").flatten).filter
            isNonEmptyString = [] := by
      rw [List.filter_eq_nil_iff]
      intro a ha
      rw [List.mem_flatten] at ha
      obtain ⟨l, hl, hal⟩ := ha
      rw [List.mem_map] at hl
      obtain ⟨fe', _, rfl⟩ := hl
      rw [List.mem_map] at hal
      obtain ⟨kv, _, rfl⟩ := hal
      decide
    simp only [buildWhereClause, hmap, Option.bind_eq_bind, Option.some_bind]
    rw [hfilter]
    rfl

/-- C9 witness: the theorem applied at a one-field where spec whose filter
object holds only its `mode` key. -/
theorem buildWhereClause_mode_only_witness :
    buildWhereClause (some [("a", [("mode", JSVal.str "SENSITIVE")])]) =
      some "" :=
  buildWhereClause_mode_only [("a", [("mode", JSVal.str "SENSITIVE")])]
    (by
      intro fe hfe kv hkv
      rw [List.mem_singleton] at hfe
      subst hfe
      rw [List.mem_singleton] at hkv
      subst hkv
      rfl)

/-- C10: every query string produced by `buildQueryFindMany` is
`SELECT <projection> FROM c`, followed — in exactly this order, joined by
single spaces — by the WHERE clause when it is non-empty and the ORDER BY
clause when it is non-empty; empty clauses are omitted entirely, and the
projection itself is never empty. -/
theorem buildQueryFindMany_shape (dto : FindManyArgs) (q : String)
    (hq : buildQueryFindMany dto = some q) :
    ∃ w, buildWhereClause dto.whereArgs = some w ∧
      constructFieldSelection dto.select ≠ "" ∧
      q = "SELECT " ++ constructFieldSelection dto.select ++ " FROM c" ++
          (if w = "" then "" else " " ++ w) ++
          (if constructOrderByClause dto.orderBy = "" then ""
           else " " ++ constructOrderByClause dto.orderBy) := by
  cases hw : buildWhereClause dto.whereArgs with
  | none =>
    rw [buildQueryFindMany, hw] at hq
    exact absurd hq (by simp)
  | some w =>
    have hsel := constructFieldSelection_ne_empty dto.select
    refine ⟨w, rfl, hsel, ?_⟩
    have hq' : q = jsJoin " "
        (["SELECT", constructFieldSelection dto.select, "FROM c", w,
          constructOrderByClause dto.orderBy].filter isNonEmptyString) := by
      rw [buildQueryFindMany, hw] at hq
      simp only [Option.bind_eq_bind, Option.some_bind, Option.pure_def,
        Option.some_inj] at hq
      exact hq.symm
    rw [hq', filter_clauses _ _ _ hsel]
    have e1 : ("SELECT " : String) = "SELECT" ++ " " := rfl
    have e2 : (" FROM c" : String) = " " ++ "FROM c" := rfl
    by_cases hwe : w = "" <;>
      by_cases hoe : constructOrderByClause dto.orderBy = "" <;>
        simp only [hwe, hoe, if_pos, if_neg, ite_true, ite_false,
          List.nil_append, List.append_nil, List.cons_append]
    · rw [jsJoin_cons_cons]
      simp only [jsJoin, e1, e2, String.append_assoc, String.append_empty]
    · rw [jsJoin_cons_cons, jsJoin_cons_cons]
      simp only [jsJoin, e1, e2, String.append_assoc, String.append_empty]
    · rw [jsJoin_cons_cons, jsJoin_cons_cons]
      simp only [jsJoin, e1, e2, String.append_assoc, String.append_empty]
    · rw [jsJoin_cons_cons, jsJoin_cons_cons, jsJoin_cons_cons]
      simp only [jsJoin, e1, e2, String.append_assoc, String.append_empty]

/-- C10 witness: the shape theorem applied at the empty request, whose
query is the minimal `SELECT * FROM c`. -/
theorem buildQueryFindMany_shape_witness :
    ∃ w, buildWhereClause (({} : FindManyArgs)).whereArgs = some w ∧
      constructFieldSelection (({} : FindManyArgs)).select ≠ "" ∧
      "SELECT * FROM c" =
        "SELECT " ++ constructFieldSelection (({} : FindManyArgs)).select ++
          " FROM c" ++ (if w = "" then "" else " " ++ w) ++
          (if constructOrderByClause (({} : FindManyArgs)).orderBy = "" then ""
           else " " ++ constructOrderByClause (({} : FindManyArgs)).orderBy) :=
  buildQueryFindMany_shape {} "SELECT * FROM c" rfl

